import Mathlib

/-
Shallow embedding of the nvenc safety wrapper (src/src/lib.rs), a Rust
wrapper around the NVIDIA Video Codec SDK's NvEncodeAPI function table.

The vendor runtime (the "capability provider") is modelled as a table of
optional entry points (`FnList`); each entry returns a numeric status
(0 = NV_ENC_SUCCESS) together with the values it writes through its
out-parameters.  Every wrapper operation is embedded as a function of the
`Encoder` (which holds the table) returning an `Outcome`, which reflects
the four ways a Rust call can end: `ok`, an `err` of the wrapper's Error
enum, a `panicked` (an assert! failure), or `ub` (library undefined
behavior, here Vec::set_len past the vector's capacity).

Numeric constants (status codes, buffer-format codes) are the values of
the vendor's nvEncodeAPI.h as exposed by the nvenc-sys crate.  The
structure-version constants (NV_ENC_*_VER) are kept symbolic in the
inductive `StructVer`, one constructor per constant name used by the
source, since their numeric values live outside this repository; the
source stamps them by name and the claims speak of them by name.
-/

namespace Nvenc

/-- A 128-bit GUID as in nvenc-sys (Data1/Data2/Data3/Data4); equality is
structural, matching the derived PartialEq used by `guid == g` in
Encoder::support_codec. -/
structure GUID where
  data1 : Nat
  data2 : Nat
  data3 : Nat
  data4 : List Nat
deriving DecidableEq, Repr

/-- The all-zero GUID, used as a concrete sample value. -/
def GUID.zeroed : GUID := { data1 := 0, data2 := 0, data3 := 0, data4 := [0, 0, 0, 0, 0, 0, 0, 0] }

/-- The wrapper's Error enum (lib.rs lines 13-26): a closed set of provider
status codes plus Uninitialized (entry point absent) and Unknown (catch-all). -/
inductive Error where
  | Uninitialized
  | InvalidPointer
  | InvalidEncodeDevice
  | DeviceNotExist
  | UnsupportedParam
  | OutOfMemory
  | InvalidParam
  | InvalidVersion
  | Generic
  | Unknown
deriving DecidableEq, Repr

/-- The u32 discriminant of each Error variant, as assigned in lib.rs from
the _NVENCSTATUS constants of nvEncodeAPI.h (NV_ENC_ERR_INVALID_PTR = 6,
NV_ENC_ERR_INVALID_ENCODERDEVICE = 3, NV_ENC_ERR_DEVICE_NOT_EXIST = 5,
NV_ENC_ERR_UNSUPPORTED_PARAM = 12, NV_ENC_ERR_OUT_OF_MEMORY = 10,
NV_ENC_ERR_INVALID_PARAM = 8, NV_ENC_ERR_INVALID_VERSION = 15,
NV_ENC_ERR_GENERIC = 20), Uninitialized = 0 and Unknown = u32::MAX. -/
def Error.toU32 : Error → Nat
  | .Uninitialized => 0
  | .InvalidPointer => 6
  | .InvalidEncodeDevice => 3
  | .DeviceNotExist => 5
  | .UnsupportedParam => 12
  | .OutOfMemory => 10
  | .InvalidParam => 8
  | .InvalidVersion => 15
  | .Generic => 20
  | .Unknown => 4294967295

/-- Error::from_u32, the mapping derived by enum_primitive_derive::Primitive:
a partial inverse of Error.toU32 (None off the discriminant set). -/
def Error.from_u32 (n : Nat) : Option Error :=
  if n = 0 then some .Uninitialized
  else if n = 6 then some .InvalidPointer
  else if n = 3 then some .InvalidEncodeDevice
  else if n = 5 then some .DeviceNotExist
  else if n = 12 then some .UnsupportedParam
  else if n = 10 then some .OutOfMemory
  else if n = 8 then some .InvalidParam
  else if n = 15 then some .InvalidVersion
  else if n = 20 then some .Generic
  else if n = 4294967295 then some .Unknown
  else none

/-- The discriminant values Error.from_u32 recognizes. -/
def knownStatusCodes : List Nat := [0, 6, 3, 5, 12, 10, 8, 15, 20, 4294967295]

/-- The error-mapping rule of the api_call! macro (lib.rs lines 66-77):
`Error::from_u32(status).unwrap_or(Error::Unknown)`. -/
def mapStatus (status : Nat) : Error := (Error.from_u32 status).getD .Unknown

/-- The wrapper's BufferFormat enum (lib.rs lines 47-64). -/
inductive BufferFormat where
  | Undefined
  | NV12
  | YV12
  | IYUV
  | YUV444
  | YUV444_10Bit
  | YUV420_10Bit
  | ARGB
  | ARGB10
  | ABGR
  | AYUV
  | ABGR10
  | U8
deriving DecidableEq, Repr

/-- The u32 discriminant of each BufferFormat variant, the
NV_ENC_BUFFER_FORMAT constants of nvEncodeAPI.h. -/
def BufferFormat.toU32 : BufferFormat → Nat
  | .Undefined => 0
  | .NV12 => 1
  | .YV12 => 16
  | .IYUV => 256
  | .YUV444 => 4096
  | .YUV444_10Bit => 1048576
  | .YUV420_10Bit => 65536
  | .ARGB => 16777216
  | .ARGB10 => 33554432
  | .ABGR => 268435456
  | .AYUV => 67108864
  | .ABGR10 => 536870912
  | .U8 => 1073741824

/-- BufferFormat::from_u32, derived by Primitive: partial inverse of
BufferFormat.toU32. -/
def BufferFormat.from_u32 (n : Nat) : Option BufferFormat :=
  if n = 0 then some .Undefined
  else if n = 1 then some .NV12
  else if n = 16 then some .YV12
  else if n = 256 then some .IYUV
  else if n = 4096 then some .YUV444
  else if n = 1048576 then some .YUV444_10Bit
  else if n = 65536 then some .YUV420_10Bit
  else if n = 16777216 then some .ARGB
  else if n = 33554432 then some .ARGB10
  else if n = 268435456 then some .ABGR
  else if n = 67108864 then some .AYUV
  else if n = 536870912 then some .ABGR10
  else if n = 1073741824 then some .U8
  else none

/-- The discriminant values BufferFormat.from_u32 recognizes. -/
def knownFormatCodes : List Nat :=
  [0, 1, 16, 256, 4096, 1048576, 65536, 16777216, 33554432, 268435456,
   67108864, 536870912, 1073741824]

/-- The total format mapping used by Encoder::supported_formats
(lib.rs line 139): `BufferFormat::from_u32(f).unwrap_or(BufferFormat::Undefined)`. -/
def BufferFormat.from_u32D (n : Nat) : BufferFormat :=
  (BufferFormat.from_u32 n).getD .Undefined

/-- The structure-version constants (NV_ENC_*_VER) the source stamps into
parameter structures, kept symbolic: one constructor per constant name.
Their numeric values come from nvenc-sys and are outside this repository;
the source refers to them by name. -/
inductive StructVer where
  | openSessionExParamsVer
  | configVer
  | presetConfigVer
  | initParamsVer
  | createInputBufferVer
  | lockInputBufferVer
  | createBitstreamBufferVer
  | lockBitstreamVer
  | picParamsVer
  | fnListVer
deriving DecidableEq, Repr

/-- NV_ENC_LOCK_INPUT_BUFFER: version, inputBuffer pointer (out-fields
bufferDataPtr and pitch are modelled as entry-point results). -/
structure LockInputBufferStruct where
  version : StructVer
  inputBuffer : Nat
deriving DecidableEq, Repr

/-- NV_ENC_LOCK_BITSTREAM: version, outputBitstream pointer (out-field
bitstreamBufferPtr modelled as an entry-point result). -/
structure LockBitstreamStruct where
  version : StructVer
  outputBitstream : Nat
deriving DecidableEq, Repr

/-- NV_ENC_CREATE_INPUT_BUFFER: version, width, height, bufferFmt
(out-field inputBuffer modelled as an entry-point result). -/
structure CreateInputBufferStruct where
  version : StructVer
  width : Nat
  height : Nat
  bufferFmt : Nat
deriving DecidableEq, Repr

/-- NV_ENC_CREATE_BITSTREAM_BUFFER: version only (out-field
bitstreamBufferPtr modelled as an entry-point result). -/
structure CreateBitstreamBufferStruct where
  version : StructVer
deriving DecidableEq, Repr

/-- NV_ENC_PRESET_CONFIG as the source touches it: its own version field
and the version field of the embedded presetCfg (NV_ENC_CONFIG). -/
structure PresetConfigStruct where
  version : StructVer
  presetCfgVersion : StructVer
deriving DecidableEq, Repr

/-- NV_ENC_INITIALIZE_PARAMS, the fields the builder writes (lib.rs
lines 263-333); the rest of the C struct stays zeroed and is omitted. -/
structure InitParamsStruct where
  version : StructVer
  encodeGUID : GUID
  encodeWidth : Nat
  encodeHeight : Nat
  darWidth : Nat
  darHeight : Nat
  maxEncodeWidth : Nat
  maxEncodeHeight : Nat
  presetGUID : GUID
  frameRateNum : Nat
  frameRateDen : Nat
  enablePTD : Nat
deriving DecidableEq, Repr

/-- The wrapper's InitParams: a NV_ENC_INITIALIZE_PARAMS it owns. -/
structure InitParams where
  init_params : InitParamsStruct
deriving DecidableEq, Repr

/-- The wrapper's PresetConfig: a NV_ENC_PRESET_CONFIG it owns. -/
structure PresetConfig where
  preset : PresetConfigStruct
deriving DecidableEq, Repr

/-- The wrapper's InputBuffer (lib.rs lines 251-256): provider pointer plus
the width, height and format copied at allocation time. -/
structure InputBuffer where
  ptr : Nat
  format : BufferFormat
  width : Nat
  height : Nat
deriving DecidableEq, Repr

/-- The wrapper's OutputBuffer (lib.rs lines 246-248): provider pointer only. -/
structure OutputBuffer where
  ptr : Nat
deriving DecidableEq, Repr

/-- The entry-point table (NV_ENCODE_API_FUNCTION_LIST) with the entries the
source calls.  Each entry is optional (None = unresolved function pointer,
which api_call! turns into Error::Uninitialized).  An entry's value is what
the provider does on a call already specialized to this session: it maps the
in-parameters the source passes to the returned status plus the values the
provider writes through out-parameters. -/
structure FnList where
  nvEncGetEncodeGUIDCount : Option (Nat × Nat) := none
  nvEncGetEncodeGUIDs : Option (Nat → Nat × List GUID × Nat) := none
  nvEncGetEncodePresetCount : Option (GUID → Nat × Nat) := none
  nvEncGetEncodePresetGUIDs : Option (GUID → Nat → Nat × List GUID × Nat) := none
  nvEncGetInputFormatCount : Option (GUID → Nat × Nat) := none
  nvEncGetInputFormats : Option (GUID → Nat → Nat × List Nat × Nat) := none
  nvEncGetEncodePresetConfig : Option (GUID → GUID → PresetConfigStruct → Nat × PresetConfigStruct) := none
  nvEncInitializeEncoder : Option (InitParamsStruct → Nat × InitParamsStruct) := none
  nvEncCreateInputBuffer : Option (CreateInputBufferStruct → Nat × Nat) := none
  nvEncLockInputBuffer : Option (LockInputBufferStruct → Nat × Nat × Nat) := none
  nvEncUnlockInputBuffer : Option (Nat → Nat) := none
  nvEncCreateBitstreamBuffer : Option (CreateBitstreamBufferStruct → Nat × Nat) := none
  nvEncLockBitstream : Option (LockBitstreamStruct → Nat × Nat) := none
  nvEncUnlockBitstream : Option (Nat → Nat) := none
  nvEncDestroyEncoder : Option Nat := none

/-- The Encoder session object: the resolved Api table (the opaque encoder
pointer is folded into the table entries, which are session-specialized). -/
structure Encoder where
  api : FnList

/-- How an embedded wrapper call ends: Ok, Err of the Error enum, a Rust
panic (assert! failure), or library undefined behavior (Vec::set_len past
the capacity). -/
inductive Outcome (α : Type) where
  | ok (a : α)
  | err (e : Error)
  | panicked
  | ub
deriving DecidableEq, Repr

/-- Embeds Encoder::support_codec (lib.rs lines 99-114).  Phase one asks for
a count, phase two fetches the GUIDs with a buffer of that capacity.  The
source then does `unsafe { guids.set_len(returned as usize) }` with no check
against the capacity: a returned count beyond the requested capacity is
library undefined behavior (`ub`).  Otherwise the first `returned` entries
are scanned for a structural match with the requested GUID. -/
def Encoder.support_codec (self : Encoder) (guid : GUID) : Outcome Bool :=
  match self.api.nvEncGetEncodeGUIDCount with
  | none => .err .Uninitialized
  | some r =>
    if r.1 ≠ 0 then .err (mapStatus r.1)
    else
      let count := r.2
      match self.api.nvEncGetEncodeGUIDs with
      | none => .err .Uninitialized
      | some f =>
        let s := f count
        if s.1 ≠ 0 then .err (mapStatus s.1)
        else if count < s.2.2 then .ub
        else .ok ((s.2.1.take s.2.2).any (fun g => decide (guid = g)))

/-- Embeds Encoder::supported_presets (lib.rs lines 116-127).  Same two-phase
pattern, but the source runs `assert!(returned <= count)` before set_len, so
a returned count beyond the capacity panics. -/
def Encoder.supported_presets (self : Encoder) (encode : GUID) : Outcome (List GUID) :=
  match self.api.nvEncGetEncodePresetCount with
  | none => .err .Uninitialized
  | some fc =>
    let r := fc encode
    if r.1 ≠ 0 then .err (mapStatus r.1)
    else
      let count := r.2
      match self.api.nvEncGetEncodePresetGUIDs with
      | none => .err .Uninitialized
      | some f =>
        let s := f encode count
        if s.1 ≠ 0 then .err (mapStatus s.1)
        else if count < s.2.2 then .panicked
        else .ok (s.2.1.take s.2.2)

/-- Embeds Encoder::supported_formats (lib.rs lines 129-140).  Two-phase
fetch of raw u32 format codes, `assert!(returned <= count)`, then each code
is mapped by `BufferFormat::from_u32(f).unwrap_or(BufferFormat::Undefined)`. -/
def Encoder.supported_formats (self : Encoder) (encode : GUID) : Outcome (List BufferFormat) :=
  match self.api.nvEncGetInputFormatCount with
  | none => .err .Uninitialized
  | some fc =>
    let r := fc encode
    if r.1 ≠ 0 then .err (mapStatus r.1)
    else
      let count := r.2
      match self.api.nvEncGetInputFormats with
      | none => .err .Uninitialized
      | some f =>
        let s := f encode count
        if s.1 ≠ 0 then .err (mapStatus s.1)
        else if count < s.2.2 then .panicked
        else .ok ((s.2.1.take s.2.2).map BufferFormat.from_u32D)

/-- The NV_ENC_PRESET_CONFIG value Encoder::preset_config passes to the
provider (lib.rs lines 143-145): zeroed, then presetCfg.version stamped with
NV_ENC_CONFIG_VER and version stamped with NV_ENC_PRESET_CONFIG_VER. -/
def presetConfigParams : PresetConfigStruct :=
  { version := .presetConfigVer, presetCfgVersion := .configVer }

/-- Embeds Encoder::preset_config (lib.rs lines 142-150): single round trip,
returning the blob the provider filled in. -/
def Encoder.preset_config (self : Encoder) (encode preset : GUID) : Outcome PresetConfig :=
  match self.api.nvEncGetEncodePresetConfig with
  | none => .err .Uninitialized
  | some f =>
    let r := f encode preset presetConfigParams
    if r.1 ≠ 0 then .err (mapStatus r.1)
    else .ok { preset := r.2 }

/-- Embeds Encoder::initialize (lib.rs lines 152-160).  The source copies the
caller's NV_ENC_INITIALIZE_PARAMS by value (`let params = init_params.init_params`)
and passes a pointer to that local copy; whatever the provider writes lands in
the copy, which is dropped.  The embedding returns the caller-visible
descriptor alongside the call result. -/
def Encoder.initializeEncoder (self : Encoder) (init_params : InitParams) :
    Outcome Unit × InitParams :=
  let params := init_params.init_params
  match self.api.nvEncInitializeEncoder with
  | none => (.err .Uninitialized, init_params)
  | some f =>
    let r := f params
    (if r.1 ≠ 0 then .err (mapStatus r.1) else .ok (), init_params)

/-- The NV_ENC_CREATE_INPUT_BUFFER value Encoder::alloc_input_buffer passes
(lib.rs lines 168-172): version stamped with NV_ENC_CREATE_INPUT_BUFFER_VER,
then width, height and the format's u32 code. -/
def allocInputBufferParams (width height : Nat) (format : BufferFormat) :
    CreateInputBufferStruct :=
  { version := .createInputBufferVer, width := width, height := height,
    bufferFmt := format.toU32 }

/-- Embeds Encoder::alloc_input_buffer (lib.rs lines 163-181): on success the
returned InputBuffer stores the provider's pointer together with the requested
width, height and format. -/
def Encoder.alloc_input_buffer (self : Encoder) (width height : Nat)
    (format : BufferFormat) : Outcome InputBuffer :=
  match self.api.nvEncCreateInputBuffer with
  | none => .err .Uninitialized
  | some f =>
    let r := f (allocInputBufferParams width height format)
    if r.1 ≠ 0 then .err (mapStatus r.1)
    else .ok { ptr := r.2, format := format, width := width, height := height }

/-- A `&mut [u32]` produced by slice::from_raw_parts_mut: base pointer and
element count. -/
structure SliceViewU32 where
  base : Nat
  len : Nat
deriving DecidableEq, Repr

/-- The NV_ENC_LOCK_INPUT_BUFFER value Encoder::input_buffer_lock passes
(lib.rs lines 186-188): version stamped with NV_ENC_LOCK_INPUT_BUFFER_VER and
the buffer's pointer. -/
def inputBufferLockParams (buffer : InputBuffer) : LockInputBufferStruct :=
  { version := .lockInputBufferVer, inputBuffer := buffer.ptr }

/-- Embeds Encoder::input_buffer_lock (lib.rs lines 183-195).  The provider
writes bufferDataPtr and pitch; the source builds the view from bufferDataPtr
with length `(buffer.width * buffer.height) as usize`, a u32 product (hence
the mod 2^32), ignoring the provider's pitch. -/
def Encoder.input_buffer_lock (self : Encoder) (buffer : InputBuffer) :
    Outcome SliceViewU32 :=
  match self.api.nvEncLockInputBuffer with
  | none => .err .Uninitialized
  | some f =>
    let r := f (inputBufferLockParams buffer)
    if r.1 ≠ 0 then .err (mapStatus r.1)
    else .ok { base := r.2.1, len := (buffer.width * buffer.height) % 4294967296 }

/-- Embeds Encoder::input_buffer_unlock (lib.rs lines 197-199). -/
def Encoder.input_buffer_unlock (self : Encoder) (buffer : InputBuffer) :
    Outcome Unit :=
  match self.api.nvEncUnlockInputBuffer with
  | none => .err .Uninitialized
  | some f =>
    let st := f buffer.ptr
    if st ≠ 0 then .err (mapStatus st) else .ok ()

/-- The NV_ENC_CREATE_BITSTREAM_BUFFER value Encoder::alloc_output_buffer
passes (lib.rs lines 202-203). -/
def allocOutputBufferParams : CreateBitstreamBufferStruct :=
  { version := .createBitstreamBufferVer }

/-- Embeds Encoder::alloc_output_buffer (lib.rs lines 201-208). -/
def Encoder.alloc_output_buffer (self : Encoder) : Outcome OutputBuffer :=
  match self.api.nvEncCreateBitstreamBuffer with
  | none => .err .Uninitialized
  | some f =>
    let r := f allocOutputBufferParams
    if r.1 ≠ 0 then .err (mapStatus r.1)
    else .ok { ptr := r.2 }

/-- The NV_ENC_LOCK_BITSTREAM value Encoder::output_buffer_lock passes
(lib.rs lines 211-213).  Faithful to the source: the version field is stamped
with NV_ENC_LOCK_INPUT_BUFFER_VER (line 212), not NV_ENC_LOCK_BITSTREAM_VER,
and the buffer parameter has type &InputBuffer (line 210). -/
def outputBufferLockParams (buffer : InputBuffer) : LockBitstreamStruct :=
  { version := .lockInputBufferVer, outputBitstream := buffer.ptr }

/-- Embeds Encoder::output_buffer_lock (lib.rs lines 210-216): on success it
yields the bitstreamBufferPtr the provider wrote (a raw `*mut c_void`). -/
def Encoder.output_buffer_lock (self : Encoder) (buffer : InputBuffer) :
    Outcome Nat :=
  match self.api.nvEncLockBitstream with
  | none => .err .Uninitialized
  | some f =>
    let r := f (outputBufferLockParams buffer)
    if r.1 ≠ 0 then .err (mapStatus r.1)
    else .ok r.2

/-- Embeds Encoder::output_buffer_unlock (lib.rs lines 218-220); like the
lock, it takes a &InputBuffer in the source. -/
def Encoder.output_buffer_unlock (self : Encoder) (buffer : InputBuffer) :
    Outcome Unit :=
  match self.api.nvEncUnlockBitstream with
  | none => .err .Uninitialized
  | some f =>
    let st := f buffer.ptr
    if st ≠ 0 then .err (mapStatus st) else .ok ()

/-- Embeds the Display impl for Error (lib.rs lines 28-32), which is
`write!(f, "An Error Occurred, Please Try Again! {}", self)`: the rendering
of an Error is the literal followed by the rendering of the same Error.
The recursion has no base case in the source, so the embedding is
fuel-indexed: `displayFmt fuel e` is the output if the formatter finishes
within `fuel` recursive calls, and `none` when the fuel runs out. -/
def Error.displayFmt : Nat → Error → Option String
  | 0, _ => none
  | fuel + 1, e =>
    (Error.displayFmt fuel e).map (fun s => "An Error Occurred, Please Try Again! " ++ s)

/-- How the Drop impl for Encoder ends once its destroy call and (on
failure) its error! line run: either drop returns, carrying the log message
it emitted (none = nothing logged), or rendering the log message diverges. -/
inductive DropResult where
  | completed (logged : Option String)
  | renderDiverged
deriving DecidableEq, Repr

/-- Embeds the Drop impl for Encoder (lib.rs lines 237-244) together with the
rendering its error! line requests from an active logger.  The first
component counts invocations of the destroy entry point; the second is how
drop ends, with the Display rendering of the error given `fuel` recursive
formatter calls. -/
def Encoder.dropEncoder (self : Encoder) (fuel : Nat) : Nat × DropResult :=
  match self.api.nvEncDestroyEncoder with
  | none =>
    match Error.displayFmt fuel .Uninitialized with
    | none => (0, .renderDiverged)
    | some s => (0, .completed (some ("failed to destroy the encoder: " ++ s)))
  | some st =>
    if st = 0 then (1, .completed none)
    else
      match Error.displayFmt fuel (mapStatus st) with
      | none => (1, .renderDiverged)
      | some s => (1, .completed (some ("failed to destroy the encoder: " ++ s)))

/-- The Version struct (lib.rs lines 354-359). -/
structure Version where
  major : Nat
  minor : Nat
deriving DecidableEq, Repr

/-- The decomposition max_version_supported applies to the provider's packed
version integer (lib.rs line 367): `major: value >> 4, minor: value & 0xf`. -/
def decomposeVersion (value : Nat) : Version :=
  { major := value >>> 4, minor := value &&& 15 }

/-- Embeds max_version_supported (lib.rs lines 362-369): the provider's
NvEncodeAPIGetMaxSupportedVersion is modelled by the status it returns and
the packed version value it writes. -/
def max_version_supported (status value : Nat) : Except Error Version :=
  if status = 0 then .ok (decomposeVersion value)
  else .error (mapStatus status)

/-- Re-packing a (major, minor) pair with the same bit layout
max_version_supported decomposes by: major in the bits above the low
nibble, minor in the low nibble. -/
def packVersion (v : Version) : Nat := (v.major <<< 4) ||| v.minor

/-- The Rust surface types occurring in the buffer lock/unlock signatures. -/
inductive RustTy where
  | unitTy
  | boolTy
  | u32
  | ptrMutCVoid
  | guidTy
  | refInputBuffer
  | refOutputBuffer
  | mutSliceU32
  | inputBufferTy
  | outputBufferTy
  | resultOf (t : RustTy)
deriving DecidableEq, Repr

/-- A Rust function signature: non-self argument types and return type. -/
structure FnSig where
  args : List RustTy
  ret : RustTy
deriving DecidableEq, Repr

/-- Signature of Encoder::input_buffer_lock (lib.rs lines 183-185):
`fn input_buffer_lock(&self, buffer: &InputBuffer) -> Result<&mut [u32]>`. -/
def input_buffer_lock_sig : FnSig :=
  { args := [.refInputBuffer], ret := .resultOf .mutSliceU32 }

/-- Signature of Encoder::input_buffer_unlock (lib.rs line 197):
`fn input_buffer_unlock(&self, buffer: &InputBuffer) -> Result<()>`. -/
def input_buffer_unlock_sig : FnSig :=
  { args := [.refInputBuffer], ret := .resultOf .unitTy }

/-- Signature of Encoder::alloc_output_buffer (lib.rs line 201):
`fn alloc_output_buffer(&self) -> Result<OutputBuffer>`. -/
def alloc_output_buffer_sig : FnSig :=
  { args := [], ret := .resultOf .outputBufferTy }

/-- Signature of Encoder::output_buffer_lock (lib.rs line 210):
`fn output_buffer_lock(&self, buffer: &InputBuffer) -> Result<*mut c_void>`. -/
def output_buffer_lock_sig : FnSig :=
  { args := [.refInputBuffer], ret := .resultOf .ptrMutCVoid }

/-- Signature of Encoder::output_buffer_unlock (lib.rs line 218):
`fn output_buffer_unlock(&self, buffer: &InputBuffer) -> Result<()>`. -/
def output_buffer_unlock_sig : FnSig :=
  { args := [.refInputBuffer], ret := .resultOf .unitTy }

/-- A session whose preset enumeration reports count 0 in phase one and then
claims 1 returned entry in phase two (a provider-contract violation). -/
def presetOverflowEnc : Encoder :=
  { api := { nvEncGetEncodePresetCount := some (fun _ => (0, 0)),
             nvEncGetEncodePresetGUIDs := some (fun _ _ => (0, [], 1)) } }

/-- A well-behaved session for the enumeration operations: every phase-one
call reports one entry and every phase-two call returns exactly one. -/
def twoPhaseEnc : Encoder :=
  { api := { nvEncGetEncodeGUIDCount := some (0, 1),
             nvEncGetEncodeGUIDs := some (fun _ => (0, [GUID.zeroed], 1)),
             nvEncGetEncodePresetCount := some (fun _ => (0, 1)),
             nvEncGetEncodePresetGUIDs := some (fun _ _ => (0, [GUID.zeroed], 1)),
             nvEncGetInputFormatCount := some (fun _ => (0, 1)),
             nvEncGetInputFormats := some (fun _ _ => (0, [1], 1)) } }

/-- A session whose codec enumeration lists exactly the zero GUID. -/
def codecEnc : Encoder :=
  { api := { nvEncGetEncodeGUIDCount := some (0, 1),
             nvEncGetEncodeGUIDs := some (fun _ => (0, [GUID.zeroed], 1)) } }

/-- A session whose format enumeration returns the single raw code `m`. -/
def formatEnc (m : Nat) : Encoder :=
  { api := { nvEncGetInputFormatCount := some (fun _ => (0, 1)),
             nvEncGetInputFormats := some (fun _ _ => (0, [m], 1)) } }

/-- A session whose input-buffer lock succeeds, handing back base pointer 7
and pitch 2048. -/
def lockEnc : Encoder :=
  { api := { nvEncLockInputBuffer := some (fun _ => (0, 7, 2048)) } }

/-- An input buffer allocated with width 1920, height 1080, format NV12. -/
def hdBuffer : InputBuffer :=
  { ptr := 1, format := .NV12, width := 1920, height := 1080 }

/-- A session whose destroy entry point fails with status 8
(NV_ENC_ERR_INVALID_PARAM). -/
def destroyFailEnc : Encoder :=
  { api := { nvEncDestroyEncoder := some 8 } }

/-- No finite fuel makes the embedded Display formatter produce output: each
unfolding step needs the rendering of the same Error first. -/
theorem displayFmt_eq_none (fuel : Nat) (e : Error) : Error.displayFmt fuel e = none := by
  induction fuel with
  | zero => rfl
  | succ n ih => simp [Error.displayFmt, ih]

/-- C10: the Display implementation for Error re-formats the error value
itself inside its own output (it is unconditionally self-recursive), so for
every Error value and every finite recursion depth the embedded formatter
produces no result: any path that renders an Error as text diverges rather
than producing a finite message. -/
theorem display_never_terminates (fuel : Nat) (e : Error) :
    Error.displayFmt fuel e = none :=
  displayFmt_eq_none fuel e

/-- C9: with a provider whose destroy entry point fails (status 8,
NV_ENC_ERR_INVALID_PARAM), the Drop impl calls destroy exactly once and
never propagates the failure, but its failure-reporting error! line hands
the error to the self-recursive Display impl, whose rendering finishes at
no finite fuel: the drop path does not complete normally, against the
claim's final clause. -/
theorem drop_destroy_once_render_diverges (fuel : Nat) :
    Encoder.dropEncoder destroyFailEnc fuel = (1, DropResult.renderDiverged) := by
  simp [Encoder.dropEncoder, destroyFailEnc, displayFmt_eq_none]

/-- C8: Encoder::initialize never mutates the caller's InitParams
descriptor: for every provider behavior, the descriptor the caller observes
after the call (on success and on error) is the one passed in, the wrapper
handing the provider only a by-value copy. -/
theorem initializeEncoder_preserves_params (enc : Encoder) (p : InitParams) :
    (enc.initializeEncoder p).2 = p := by
  cases h : enc.api.nvEncInitializeEncoder <;>
    simp [Encoder.initializeEncoder, h]

/-- C2: preset_config and alloc_input_buffer (and input_buffer_lock) stamp
their structures' own version constants, but output_buffer_lock stamps
NV_ENC_LOCK_INPUT_BUFFER_VER — another structure's constant — into the
NV_ENC_LOCK_BITSTREAM parameter structure instead of the bitstream-lock
version constant NV_ENC_LOCK_BITSTREAM_VER the claim names. -/
theorem output_buffer_lock_wrong_version_stamp (b : InputBuffer) (w h : Nat)
    (fmt : BufferFormat) :
    (outputBufferLockParams b).version = StructVer.lockInputBufferVer ∧
    StructVer.lockInputBufferVer ≠ StructVer.lockBitstreamVer ∧
    presetConfigParams.version = StructVer.presetConfigVer ∧
    presetConfigParams.presetCfgVersion = StructVer.configVer ∧
    (allocInputBufferParams w h fmt).version = StructVer.createInputBufferVer ∧
    (inputBufferLockParams b).version = StructVer.lockInputBufferVer :=
  ⟨rfl, by decide, rfl, rfl, rfl, rfl⟩

/-- C3: the output lock/unlock pair mirrors the input pair's shape and a
successful lock yields the raw bitstream base pointer, but both output
functions are declared over &InputBuffer: the OutputBuffer value that
alloc_output_buffer returns is not their parameter type, against the claim. -/
theorem output_buffer_lock_takes_input_buffer :
    output_buffer_lock_sig.args = [RustTy.refInputBuffer] ∧
    output_buffer_lock_sig.args ≠ [RustTy.refOutputBuffer] ∧
    output_buffer_unlock_sig.args = [RustTy.refInputBuffer] ∧
    alloc_output_buffer_sig.ret = RustTy.resultOf RustTy.outputBufferTy ∧
    output_buffer_lock_sig.ret = RustTy.resultOf RustTy.ptrMutCVoid ∧
    output_buffer_lock_sig.args = input_buffer_lock_sig.args :=
  ⟨rfl, by decide, rfl, rfl, rfl, rfl⟩

/-- C5: for every representable unsigned 32-bit version integer, splitting
it the way max_version_supported does (major = value >> 4, minor =
value & 0xf) and re-packing (major << 4) | minor with the same bit layout
reproduces the original integer. -/
theorem version_pack_roundtrip (value : Nat) (h : value < 2 ^ 32) :
    packVersion (decomposeVersion value) = value := by
  unfold packVersion decomposeVersion
  apply Nat.eq_of_testBit_eq
  intro i
  rw [Nat.testBit_or, Nat.testBit_shiftLeft, Nat.testBit_shiftRight]
  have h15 : (15 : Nat) = 2 ^ 4 - 1 := by norm_num
  rw [h15, Nat.and_pow_two_sub_one_eq_mod, Nat.testBit_mod_two_pow]
  by_cases hi : 4 ≤ i
  · have h4 : 4 + (i - 4) = i := by omega
    have hlt : ¬ i < 4 := by omega
    rw [h4]
    simp [hi, hlt]
  · have hlt : i < 4 := by omega
    simp [hi, hlt]

/-- C5 witness: the round trip at the packed version value 0x900000F0. -/
theorem version_pack_roundtrip_witness :
    packVersion (decomposeVersion 2415919344) = 2415919344 :=
  version_pack_roundtrip 2415919344 (by norm_num)

/-- C4: the integer-to-enum mappings are total with a fallback: every
unsigned 32-bit status outside the known discriminant set maps to
Error::Unknown (never a panic, never a failure of the mapping), every
integer outside the known BufferFormat codes maps to Undefined, and
supported_formats hands such a code back as Undefined rather than failing. -/
theorem unknown_codes_fall_back (n m : Nat) (g : GUID)
    (hn : n < 2 ^ 32) (hm : m < 2 ^ 32)
    (hkn : n ∉ knownStatusCodes) (hkm : m ∉ knownFormatCodes) :
    mapStatus n = Error.Unknown ∧
    BufferFormat.from_u32D m = BufferFormat.Undefined ∧
    (formatEnc m).supported_formats g = Outcome.ok [BufferFormat.Undefined] := by
  simp [knownStatusCodes] at hkn
  simp [knownFormatCodes] at hkm
  obtain ⟨hn0, hn6, hn3, hn5, hn12, hn10, hn8, hn15, hn20, hnmax⟩ := hkn
  obtain ⟨hm0, hm1, hm16, hm256, hm4096, hmA, hmB, hmC, hmD, hmE, hmF, hmG, hmH⟩ := hkm
  have hmap : mapStatus n = Error.Unknown := by
    simp [mapStatus, Error.from_u32, hn0, hn6, hn3, hn5, hn12, hn10, hn8, hn15,
      hn20, hnmax]
  have hfmt : BufferFormat.from_u32D m = BufferFormat.Undefined := by
    simp [BufferFormat.from_u32D, BufferFormat.from_u32, hm0, hm1, hm16, hm256,
      hm4096, hmA, hmB, hmC, hmD, hmE, hmF, hmG, hmH]
  refine ⟨hmap, hfmt, ?_⟩
  simp [Encoder.supported_formats, formatEnc, hfmt]

/-- C4 witness: status code 7 (NV_ENC_ERR_INVALID_EVENT, not a variant of
the Error enum) and format code 2 (no BufferFormat discriminant). -/
theorem unknown_codes_fall_back_witness :
    mapStatus 7 = Error.Unknown ∧
    BufferFormat.from_u32D 2 = BufferFormat.Undefined ∧
    (formatEnc 2).supported_formats GUID.zeroed = Outcome.ok [BufferFormat.Undefined] :=
  unknown_codes_fall_back 7 2 GUID.zeroed (by norm_num) (by norm_num)
    (by decide) (by decide)

/-- C6: when both provider enumeration calls succeed (with the provider
honoring its contract that returned ≤ count), support_codec returns
Ok(true) exactly when the requested GUID is structurally equal to some GUID
among the first `returned` entries of the provider-returned list, and
Ok(false) — not an error — when it is not in that valid portion. -/
theorem support_codec_mem_iff (enc : Encoder) (g : GUID) (count returned : Nat)
    (buf : List GUID) (fg : Nat → Nat × List GUID × Nat)
    (h1 : enc.api.nvEncGetEncodeGUIDCount = some (0, count))
    (h2 : enc.api.nvEncGetEncodeGUIDs = some fg)
    (h3 : fg count = (0, buf, returned))
    (h4 : returned ≤ count) :
    (enc.support_codec g = Outcome.ok true ↔ g ∈ buf.take returned) ∧
    (g ∉ buf.take returned → enc.support_codec g = Outcome.ok false) := by
  have hnl : ¬ count < returned := Nat.not_lt.mpr h4
  have hcomp : enc.support_codec g =
      Outcome.ok ((buf.take returned).any (fun x => decide (g = x))) := by
    simp [Encoder.support_codec, h1, h2, h3, hnl]
  constructor
  · rw [hcomp]
    constructor
    · intro hok2
      have hb : (buf.take returned).any (fun x => decide (g = x)) = true := by
        injection hok2
      obtain ⟨x, hx, he⟩ := List.any_eq_true.mp hb
      obtain rfl := of_decide_eq_true he
      exact hx
    · intro hmem
      have hb : (buf.take returned).any (fun x => decide (g = x)) = true :=
        List.any_eq_true.mpr ⟨g, hmem, by simp⟩
      rw [hb]
  · intro hmem
    have hany : (buf.take returned).any (fun x => decide (g = x)) = false := by
      rw [List.any_eq_false]
      intro x hx he
      exact hmem ((of_decide_eq_true he).symm ▸ hx)
    rw [hcomp, hany]

/-- C6 witness: querying the zero GUID against a provider whose codec list
is exactly that GUID yields Ok(true). -/
theorem support_codec_mem_iff_witness :
    Encoder.support_codec codecEnc GUID.zeroed = Outcome.ok true :=
  (support_codec_mem_iff codecEnc GUID.zeroed 1 1 [GUID.zeroed]
      (fun _ => (0, [GUID.zeroed], 1)) rfl rfl rfl (Nat.le_refl 1)).1.mpr
    (by decide)

/-- C7: a successful input_buffer_lock returns a view whose length is
exactly the buffer's stored width multiplied by its stored height (the
values copied at allocation time), whenever that u32 product is
representable, and independent of the base pointer and pitch the provider
reports at lock time (the provider behavior is universally quantified). -/
theorem input_buffer_lock_view_len (enc : Encoder) (buffer : InputBuffer)
    (view : SliceViewU32)
    (hfit : buffer.width * buffer.height < 2 ^ 32)
    (hok : enc.input_buffer_lock buffer = Outcome.ok view) :
    view.len = buffer.width * buffer.height := by
  have hfit' : buffer.width * buffer.height < 4294967296 := by
    have h32 : (2 : Nat) ^ 32 = 4294967296 := by norm_num
    rw [h32] at hfit
    exact hfit
  cases h : enc.api.nvEncLockInputBuffer with
  | none =>
    simp [Encoder.input_buffer_lock, h] at hok
  | some f =>
    simp only [Encoder.input_buffer_lock, h] at hok
    by_cases hst : (f (inputBufferLockParams buffer)).1 ≠ 0
    · simp [hst] at hok
    · simp only [hst, if_false] at hok
      injection hok with hv
      rw [← hv]
      simp [Nat.mod_eq_of_lt hfit']

/-- C7 witness: locking a buffer allocated with width 1920 and height 1080
yields a view of exactly 1920*1080 = 2073600 elements. -/
theorem input_buffer_lock_view_len_witness :
    SliceViewU32.len { base := 7, len := 2073600 } = hdBuffer.width * hdBuffer.height :=
  input_buffer_lock_view_len lockEnc hdBuffer { base := 7, len := 2073600 }
    (by decide) (by decide)

/-- C1 counterexample: a provider that reports preset count 0 in phase one
and claims 1 returned entry in phase two drives supported_presets into
assert!(returned <= count): the operation panics instead of returning an
Error, so a returned count beyond the requested capacity does not make the
operation "fail by returning an Error". -/
theorem supported_presets_overflow_panics :
    Encoder.supported_presets presetOverflowEnc GUID.zeroed = Outcome.panicked := by
  decide

/-- C1 (amended): in every two-phase enumeration only the returned count,
never the requested capacity, determines the valid result slice; but when
the provider's returned count exceeds the requested capacity,
supported_presets and supported_formats fail by an assertion panic rather
than by returning an Error, and support_codec performs no check at all (its
unchecked Vec::set_len past the capacity is library undefined behavior). -/
theorem two_phase_overflow_behavior (enc : Encoder) (e g : GUID)
    (count returned : Nat) (gbuf pbuf : List GUID) (fbuf : List Nat)
    (fgc : Nat → Nat × List GUID × Nat)
    (fpc : GUID → Nat × Nat) (fpg : GUID → Nat → Nat × List GUID × Nat)
    (ffc : GUID → Nat × Nat) (ff : GUID → Nat → Nat × List Nat × Nat)
    (h1 : enc.api.nvEncGetEncodeGUIDCount = some (0, count))
    (h2 : enc.api.nvEncGetEncodeGUIDs = some fgc)
    (h3 : fgc count = (0, gbuf, returned))
    (h4 : enc.api.nvEncGetEncodePresetCount = some fpc)
    (h5 : fpc e = (0, count))
    (h6 : enc.api.nvEncGetEncodePresetGUIDs = some fpg)
    (h7 : fpg e count = (0, pbuf, returned))
    (h8 : enc.api.nvEncGetInputFormatCount = some ffc)
    (h9 : ffc e = (0, count))
    (h10 : enc.api.nvEncGetInputFormats = some ff)
    (h11 : ff e count = (0, fbuf, returned)) :
    (count < returned →
      enc.supported_presets e = Outcome.panicked ∧
      enc.supported_formats e = Outcome.panicked ∧
      enc.support_codec g = Outcome.ub) ∧
    (returned ≤ count →
      enc.supported_presets e = Outcome.ok (pbuf.take returned) ∧
      enc.supported_formats e =
        Outcome.ok ((fbuf.take returned).map BufferFormat.from_u32D) ∧
      enc.support_codec g =
        Outcome.ok ((gbuf.take returned).any (fun x => decide (g = x)))) := by
  constructor
  · intro hlt
    refine ⟨?_, ?_, ?_⟩
    · simp [Encoder.supported_presets, h4, h5, h6, h7, hlt]
    · simp [Encoder.supported_formats, h8, h9, h10, h11, hlt]
    · simp [Encoder.support_codec, h1, h2, h3, hlt]
  · intro hle
    have hnl : ¬ count < returned := Nat.not_lt.mpr hle
    refine ⟨?_, ?_, ?_⟩
    · simp [Encoder.supported_presets, h4, h5, h6, h7, hnl]
    · simp [Encoder.supported_formats, h8, h9, h10, h11, hnl]
    · simp [Encoder.support_codec, h1, h2, h3, hnl]

/-- C1 witness: with a well-behaved provider (count 1 reported, 1 entry
returned everywhere) the preset enumeration succeeds with exactly the
returned entries. -/
theorem two_phase_overflow_behavior_witness :
    Encoder.supported_presets twoPhaseEnc GUID.zeroed =
      Outcome.ok (List.take 1 [GUID.zeroed]) :=
  ((two_phase_overflow_behavior twoPhaseEnc GUID.zeroed GUID.zeroed 1 1
      [GUID.zeroed] [GUID.zeroed] [1]
      (fun _ => (0, [GUID.zeroed], 1))
      (fun _ => (0, 1)) (fun _ _ => (0, [GUID.zeroed], 1))
      (fun _ => (0, 1)) (fun _ _ => (0, [1], 1))
      rfl rfl rfl rfl rfl rfl rfl rfl rfl rfl rfl).2 (Nat.le_refl 1)).1

end Nvenc
